import Mathlib

/-!
Verification of the multi-tenant authorization pipeline of ai-desk-support:
tenant resolution from the host header (src/middleware.ts), JWT credential
verification (src/lib/auth.ts), header-based context propagation, and the
allow/deny gate (src/lib/multi-tenant.ts) as composed by the API routes.

JavaScript strings are modelled as Lean `String`s; `string | null` values
(header lookups, cookie values) as `Option String`; JS truthiness of such a
value is `strTruthy` (absent and empty string are falsy).  Character-level JS
string primitives (`split`, `startsWith`, `substring`) are modelled on the
underlying character list so that they compute by structural recursion.
-/

namespace AiDesk

/-- JS truthiness of a `string | null` value: `null` and `""` are falsy. -/
def strTruthy : Option String → Bool
  | none => false
  | some s => !(s == "")

/-- JS `s.startsWith(pre)`, modelled on the character list. -/
def jsStartsWith (s pre : String) : Bool :=
  pre.data.isPrefixOf s.data

/-- JS `s.substring(n)`: the characters of `s` from index `n` on. -/
def jsSubstringFrom (s : String) (n : Nat) : String :=
  String.mk (s.data.drop n)

/-- Split a character list on a separator character; JS
`s.split(sep)` semantics (`"".split(sep)` is `[""]`). -/
def splitOnChar (sep : Char) : List Char → List (List Char)
  | [] => [[]]
  | c :: cs =>
    if c = sep then
      [] :: splitOnChar sep cs
    else
      match splitOnChar sep cs with
      | [] => [[c]]
      | h :: t => (c :: h) :: t

/-- JS `s.split(sep)` for a single-character separator. -/
def jsSplit (s : String) (sep : Char) : List String :=
  (splitOnChar sep s.data).map String.mk

/-- `getSubdomain` from src/middleware.ts: extract the tenant slug from the
raw `Host` header value (which may still carry a `:port` suffix).  The
development branch fires only when the hostname equals `localhost` or starts
with `127.0.0.1` or `localhost:`; otherwise the production shape
(at least three dot-separated labels, `www` excluded) is required. -/
def getSubdomain (hostname : String) : Option String :=
  if hostname == "localhost" || jsStartsWith hostname "127.0.0.1"
      || jsStartsWith hostname "localhost:" then
    let parts := jsSplit hostname '.'
    if parts.length ≥ 2 ∧ parts.headD "" ≠ "localhost" then
      some (parts.headD "")
    else
      none
  else
    let parts := jsSplit hostname '.'
    if parts.length ≥ 3 then
      if parts.headD "" = "www" then none else some (parts.headD "")
    else
      none

/-! ## Credential verification (src/lib/auth.ts, jsonwebtoken / jose) -/

/-- The claims carried by a JWT, as in src/lib/auth.ts (`JWTPayload`). -/
structure JWTPayload where
  userId : String
  email : String
  orgId : String
  role : String
  exp : Option Nat
deriving DecidableEq

/-- The failure kinds `jwt.verify` can raise: JsonWebTokenError for a
malformed token, JsonWebTokenError (invalid signature), TokenExpiredError. -/
inductive JwtError where
  | malformed
  | badSignature
  | expired
deriving DecidableEq

/-- Modelled MAC used for token signatures: a deterministic tag over the
secret and the signed body, standing in for HMAC-SHA256. -/
def macModel (secret body : String) : String :=
  "sig:" ++ secret ++ ":" ++ body

/-- Parse a digit list to a number; any non-digit character fails. -/
def parseNat? (l : List Char) : Option Nat :=
  l.foldl
    (fun acc c =>
      match acc with
      | none => none
      | some n => if c.isDigit then some (n * 10 + (c.toNat - 48)) else none)
    (some 0)

/-- Decode a token body of shape `userId|email|orgId|role|exp` into claims;
an empty `exp` field means no expiry claim. -/
def decodeClaims (body : String) : Option JWTPayload :=
  match jsSplit body '|' with
  | [u, e, o, r, ex] =>
    if ex = "" then
      some ⟨u, e, o, r, none⟩
    else
      match parseNat? ex.data with
      | some n => some ⟨u, e, o, r, some n⟩
      | none => none
  | _ => none

/-- Modelled `jwt.verify(token, secret)` (jsonwebtoken; the jose
`jwtVerify` used by src/middleware.ts has the same accept/reject semantics):
decode the token, check the signature, then check the `exp` claim against
the current time.  A well-signed token whose expiry has passed raises
`TokenExpiredError` (`expired`), never an invalid-signature error. -/
def jwtVerify (now : Nat) (secret token : String) : Except JwtError JWTPayload :=
  match jsSplit token '.' with
  | [body, sig] =>
    match decodeClaims body with
    | none => .error .malformed
    | some p =>
      if sig ≠ macModel secret body then .error .badSignature
      else
        match p.exp with
        | some e => if e ≤ now then .error .expired else .ok p
        | none => .ok p
  | _ => .error .malformed

/-- `verifyToken` from src/lib/auth.ts: `jwt.verify` wrapped in
`try { ... } catch { return null }` — every verification error, of any kind,
is caught and collapsed to `null`. -/
def verifyToken (now : Nat) (secret token : String) : Option JWTPayload :=
  match jwtVerify now secret token with
  | .ok p => some p
  | .error _ => none

/-- `getTokenFromRequest` from src/lib/auth.ts: prefer the `Authorization`
header when it is truthy and starts with `Bearer `, returning the substring
after the prefix; otherwise fall back to the `auth-token` cookie value when
that is truthy; otherwise `null`. -/
def getTokenFromRequest (authorization cookieToken : Option String) : Option String :=
  if strTruthy authorization ∧ jsStartsWith (authorization.getD "") "Bearer " then
    some (jsSubstringFrom (authorization.getD "") 7)
  else if strTruthy cookieToken then
    cookieToken
  else
    none

/-- The authentication prefix shared by the API route handlers
(src/app/api/auth/me/route.ts, the users route): extract the token, then
verify it; distinguish only token absence from verification failure. -/
inductive AuthOutcome where
  | noToken
  | invalidToken
  | ok (p : JWTPayload)
deriving DecidableEq

/-- Token extraction and verification as composed by the route handlers. -/
def routeAuth (now : Nat) (secret : String)
    (authorization cookieToken : Option String) : AuthOutcome :=
  match getTokenFromRequest authorization cookieToken with
  | none => .noToken
  | some t =>
    match verifyToken now secret t with
    | none => .invalidToken
    | some p => .ok p

/-! ## Roles (src/lib/multi-tenant.ts) -/

/-- The `roleHierarchy` record from `hasMinimumRole`: a JS object lookup,
`undefined` (here `none`) for any key other than the three role tags. -/
def roleHierarchy : String → Option Nat
  | "OWNER" => some 3
  | "ADMIN" => some 2
  | "AGENT" => some 1
  | _ => none

/-- `hasMinimumRole` from src/lib/multi-tenant.ts:
`roleHierarchy[userRole] >= roleHierarchy[minimumRole]`.  In JS a `>=`
comparison with `undefined` on either side evaluates to `false`, so an
unrecognized role never passes. -/
def hasMinimumRole (userRole minimumRole : String) : Bool :=
  match roleHierarchy userRole, roleHierarchy minimumRole with
  | some a, some b => a ≥ b
  | _, _ => false

/-- `hasRole` from src/lib/multi-tenant.ts: `requiredRoles.includes(userRole)`. -/
def hasRole (userRole : String) (requiredRoles : List String) : Bool :=
  requiredRoles.contains userRole

/-! ## Tenant directory and the Gate (src/lib/multi-tenant.ts) -/

/-- A stored organization document (the Org model: `_id`, `slug`, `name`). -/
structure Org where
  _id : String
  slug : String
  name : String
deriving DecidableEq

/-- The tenant directory is the Org collection; `Org.findOne({slug})`. -/
def findBySlug (orgs : List Org) (s : String) : Option Org :=
  orgs.find? (fun o => o.slug == s)

/-- `Org.findById(id)`: lookup by the `_id` field. -/
def findById (orgs : List Org) (u : String) : Option Org :=
  orgs.find? (fun o => o._id == u)

/-- The `OrgContext` struct returned by `validateOrgContext`. -/
structure OrgContext where
  orgId : String
  orgSlug : String
  orgName : String
deriving DecidableEq

/-- Database effects issued by the gate: `connectToDB()` and the two Org
collection queries.  Used to state the zero-lookup property. -/
inductive DbEvent where
  | connect
  | orgFindOne (slug : String)
  | orgFindById (id : String)
deriving DecidableEq

/-- The taxonomy of denial kinds (spec §7), tagging each error branch of the
source.  The HTTP status and message in each branch are the source's own. -/
inductive DenyKind where
  | missingCredential
  | invalidCredential
  | missingTenant
  | tenantNotFound
  | crossTenantAccess
  | insufficientRole
  | internalFailure
deriving DecidableEq

/-- Result of `validateOrgContext`: the org context, or an error response
(branch kind, HTTP status, JSON error message as in the source). -/
inductive CtxResult where
  | ok (org : OrgContext)
  | err (kind : DenyKind) (status : Nat) (msg : String)
deriving DecidableEq

/-- `validateOrgSubdomain` from src/lib/multi-tenant.ts: connect, then
`Org.findOne({ slug: subdomain })`; paired with the DB events it issues. -/
def validateOrgSubdomain (orgs : List Org) (subdomain : String) :
    Option OrgContext × List DbEvent :=
  match findBySlug orgs subdomain with
  | none => (none, [.connect, .orgFindOne subdomain])
  | some org => (some ⟨org._id, org.slug, org.name⟩, [.connect, .orgFindOne subdomain])

/-- `validateOrgContext` from src/lib/multi-tenant.ts, instrumented with the
DB events it issues.  Inputs are the `x-org-subdomain` and `x-user-orgid`
request headers (via `getOrgFromRequest` / `getUserFromRequest`) and
`process.env.NODE_ENV`. -/
def validateOrgContext (orgs : List Org) (nodeEnv : String)
    (subdomain userOrgId : Option String) : CtxResult × List DbEvent :=
  if strTruthy subdomain = false ∧ nodeEnv = "development" ∧ strTruthy userOrgId then
    match findById orgs (userOrgId.getD "") with
    | none =>
      (.err .tenantNotFound 404 "Organization not found",
       [.connect, .orgFindById (userOrgId.getD "")])
    | some org =>
      (.ok ⟨org._id, org.slug, org.name⟩, [.connect, .orgFindById (userOrgId.getD "")])
  else if strTruthy subdomain = false then
    (.err .missingTenant 400 "Organization subdomain required", [])
  else
    match validateOrgSubdomain orgs (subdomain.getD "") with
    | (none, evs) => (.err .tenantNotFound 404 "Organization not found", evs)
    | (some org, evs) =>
      if strTruthy userOrgId ∧ userOrgId ≠ some org.orgId then
        (.err .crossTenantAccess 403 "Access denied: You do not belong to this organization", evs)
      else
        (.ok org, evs)

/-- Result of the role validators: authorized, or an error response. -/
inductive RoleResult where
  | authorized
  | err (kind : DenyKind) (status : Nat) (msg : String)
deriving DecidableEq

/-- `validateMinimumRole` from src/lib/multi-tenant.ts, on the raw
`x-user-role` header value. -/
def validateMinimumRole (userRole : Option String) (minimumRole : String) : RoleResult :=
  if strTruthy userRole = false then
    .err .missingCredential 401 "User role not found"
  else if hasMinimumRole (userRole.getD "") minimumRole = false then
    .err .insufficientRole 403 ("Requires " ++ minimumRole ++ " role or higher")
  else
    .authorized

/-- A terminal authorization decision. -/
inductive Decision where
  | allowed (org : OrgContext)
  | denied (kind : DenyKind) (status : Nat) (msg : String)
deriving DecidableEq

/-- The Gate: `validateOrgContext` followed by `validateMinimumRole`,
composed exactly as the API route handlers do (first the org validation,
returning its error response on failure, then the role check). -/
def gate (orgs : List Org) (nodeEnv : String)
    (subdomain userOrgId userRole : Option String) (minimumRole : String) :
    Decision × List DbEvent :=
  match validateOrgContext orgs nodeEnv subdomain userOrgId with
  | (.err k s m, evs) => (.denied k s m, evs)
  | (.ok org, evs) =>
    match validateMinimumRole userRole minimumRole with
    | .err k s m => (.denied k s m, evs)
    | .authorized => (.allowed org, evs)

/-! ## Edge stage (src/middleware.ts) and context propagation -/

/-- The request headers relevant to the pipeline, as sent by the client. -/
structure ReqHeaders where
  host : Option String
  xOrgSubdomain : Option String
  xUserOrgId : Option String
  xUserRole : Option String
deriving DecidableEq

/-- `getOrgFromRequest` from src/lib/multi-tenant.ts: read the
`x-org-subdomain` header of the request the handler receives. -/
def getOrgFromRequest (req : ReqHeaders) : Option String :=
  req.xOrgSubdomain

/-- `getUserFromRequest` from src/lib/multi-tenant.ts: read the
`x-user-orgid` and `x-user-role` headers of the request the handler
receives. -/
def getUserFromRequest (req : ReqHeaders) : Option String × Option String :=
  (req.xUserOrgId, req.xUserRole)

/-- What the middleware returns for a request. -/
inductive MwAction where
  | next
  | nextWith (responseHeaders : List (String × String))
  | redirectLogin
  | jsonError (kind : DenyKind) (status : Nat) (msg : String)
deriving DecidableEq

/-- The middleware's outcome: its returned action, and the request headers
the handler stage subsequently reads. -/
structure MwResult where
  action : MwAction
  forwarded : ReqHeaders
deriving DecidableEq

/-- The `middleware` function of src/middleware.ts.  The source calls
`NextResponse.next()` and then `response.headers.set(...)` for
`x-org-subdomain` / `x-user-orgid` / `x-user-role`: those `set` calls write
headers of the outgoing RESPONSE object.  `NextResponse.next()` forwards the
incoming request itself unmodified (forwarding altered request headers would
require `NextResponse.next({ request: { headers } })`, which the source does
not use), so the `forwarded` headers are the client's own in every branch. -/
def middleware (now : Nat) (secret nodeEnv pathname : String)
    (cookieToken : Option String) (req : ReqHeaders) : MwResult :=
  let hostname := req.host.getD ""
  let subdomain := getSubdomain hostname
  let isPublicRoute := pathname ∈ ["/login", "/register"]
  let isAuthApi := pathname ∈ ["/api/auth/login", "/api/auth/register", "/api/auth/logout"]
  let payload : Option JWTPayload :=
    if strTruthy cookieToken then verifyToken now secret (cookieToken.getD "") else none
  let userOrgId := payload.map (fun p => p.orgId)
  let userRole := payload.map (fun p => p.role)
  let respHeaders :=
    (if strTruthy subdomain then [("x-org-subdomain", subdomain.getD "")] else [])
      ++ (if strTruthy userOrgId then [("x-user-orgid", userOrgId.getD "")] else [])
      ++ (if strTruthy userRole then [("x-user-role", userRole.getD "")] else [])
  if isAuthApi ∨ isPublicRoute then
    if isPublicRoute then ⟨.next, req⟩ else ⟨.nextWith respHeaders, req⟩
  else if strTruthy cookieToken = false then
    if jsStartsWith pathname "/api/" then
      ⟨.jsonError .missingCredential 401 "Unauthorized", req⟩
    else
      ⟨.redirectLogin, req⟩
  else if strTruthy subdomain then
    ⟨.nextWith respHeaders, req⟩
  else if nodeEnv = "production" then
    ⟨.jsonError .missingTenant 400 "Organization subdomain required", req⟩
  else
    ⟨.nextWith respHeaders, req⟩

/-! ## The full route handler (the users route, GET) -/

/-- The GET handler of the users API route: the catch-all `try/catch`
(returning 500 when the database layer throws), the token extraction and
verification prefix, then the Gate with the route's minimum role.  `dbUp`
models whether the database layer is reachable (`connectToDB` and the
queries throw when it is not, and the handler catches). -/
def routeGET (dbUp : Bool) (orgs : List Org) (nodeEnv : String) (now : Nat)
    (secret : String) (authorization cookieToken subdomain userOrgId userRole : Option String)
    (minimumRole : String) : Decision :=
  if dbUp = false then
    .denied .internalFailure 500 "Internal server error"
  else
    match getTokenFromRequest authorization cookieToken with
    | none => .denied .missingCredential 401 "Unauthorized"
    | some t =>
      match verifyToken now secret t with
      | none => .denied .invalidCredential 401 "Invalid token"
      | some _ => (gate orgs nodeEnv subdomain userOrgId userRole minimumRole).fst

/-- The decision-to-status mapping as spec §6 states it. -/
def specStatusOf : DenyKind → Nat
  | .missingCredential => 401
  | .invalidCredential => 401
  | .crossTenantAccess => 403
  | .insufficientRole => 403
  | .tenantNotFound => 404
  | .missingTenant => 400
  | .internalFailure => 500

/-! ## The Gate as the spec states it (for the ordering claim) -/

/-- Steps 3-5 of the spec §4.5 decision procedure, written from the spec's
words: membership before role, role before allow. -/
def gateSpecTail (org : OrgContext) (userOrgId userRole : Option String)
    (minimumRole : String) : Decision :=
  if strTruthy userOrgId ∧ userOrgId ≠ some org.orgId then
    .denied .crossTenantAccess 403 "Access denied: You do not belong to this organization"
  else if strTruthy userRole = false then
    .denied .missingCredential 401 "User role not found"
  else if hasMinimumRole (userRole.getD "") minimumRole = false then
    .denied .insufficientRole 403 ("Requires " ++ minimumRole ++ " role or higher")
  else
    .allowed org

/-- The spec §4.5 decision procedure, written from the spec's words in its
stated order: (1) missing-slug handling with the development fallback to the
principal's own tenant id, (2) directory lookup, (3) membership,
(4) role, (5) allow. -/
def gateSpec (orgs : List Org) (nodeEnv : String)
    (subdomain userOrgId userRole : Option String) (minimumRole : String) : Decision :=
  if strTruthy subdomain = false then
    if nodeEnv = "development" ∧ strTruthy userOrgId then
      match findById orgs (userOrgId.getD "") with
      | none => .denied .tenantNotFound 404 "Organization not found"
      | some org => gateSpecTail ⟨org._id, org.slug, org.name⟩ userOrgId userRole minimumRole
    else
      .denied .missingTenant 400 "Organization subdomain required"
  else
    match findBySlug orgs (subdomain.getD "") with
    | none => .denied .tenantNotFound 404 "Organization not found"
    | some org => gateSpecTail ⟨org._id, org.slug, org.name⟩ userOrgId userRole minimumRole

/-! ## Test fixtures -/

/-- The fallback signing secret of src/lib/auth.ts and src/middleware.ts. -/
def testSecret : String := "fallback-secret-key"

/-- Body of a token whose `exp` claim is 100. -/
def expiredBody : String := "u1|a@b|org1|AGENT|100"

/-- A well-signed token with `exp = 100` (expired once `now ≥ 100`). -/
def expiredToken : String := expiredBody ++ "." ++ macModel testSecret expiredBody

/-- The same claims with a signature that does not verify. -/
def badSigToken : String := expiredBody ++ "." ++ "forged"

/-- Body of a token with `exp = 999`, valid at `now = 100`. -/
def validBody : String := "u1|a@b|org1|AGENT|999"

/-- A well-signed, unexpired (at `now = 100`) token bound to org `org1`. -/
def validToken : String := validBody ++ "." ++ macModel testSecret validBody

/-- A stored organization, slug `acme-corp`, id `org1`. -/
def acmeOrg : Org := ⟨"org1", "acme-corp", "Acme Corp"⟩

/-- A second stored organization, slug `techcorp`, id `org2`. -/
def techOrg : Org := ⟨"org2", "techcorp", "TechCorp"⟩

/-- The forged request of the context-forgery scenario: the client itself
supplies values under the trusted header names. -/
def forgedReq : ReqHeaders :=
  ⟨some "acme-corp.example.com", some "victim-org", some "forged-id", some "OWNER"⟩

/-! ## Shared lemmas -/

/-- An org found by id carries that id. -/
theorem findById_id (orgs : List Org) (u : String) (org : Org)
    (h : findById orgs u = some org) : org._id = u := by
  unfold findById at h
  have hp := List.find?_some h
  exact eq_of_beq hp

/-- A string with `Bearer ` as a prefix is nonempty (truthy). -/
theorem jsStartsWith_bearer_ne_empty (a : String)
    (h : jsStartsWith a "Bearer " = true) : (a == "") = false := by
  cases hb : a == "" with
  | false => rfl
  | true =>
    have : a = "" := eq_of_beq hb
    subst this
    exact absurd h (by decide)

/-- `Bearer ` is a prefix of `"Bearer " ++ t`. -/
theorem jsStartsWith_bearer_append (t : String) :
    jsStartsWith ("Bearer " ++ t) "Bearer " = true := by
  unfold jsStartsWith
  rw [String.data_append, List.isPrefixOf_iff_prefix]
  exact List.prefix_append _ _

/-- Dropping the 7 characters of `Bearer ` from `"Bearer " ++ t` gives `t`. -/
theorem jsSubstringFrom_bearer_append (t : String) :
    jsSubstringFrom ("Bearer " ++ t) 7 = t := by
  unfold jsSubstringFrom
  rw [String.data_append]
  have h7 : ("Bearer " : String).data.length = 7 := rfl
  rw [← h7, List.drop_left]

/-- Wrapping a token in a `Bearer ` Authorization header hands exactly that
token to the verifier. -/
theorem getTokenFromRequest_bearer (t : String) :
    getTokenFromRequest (some ("Bearer " ++ t)) none = some t := by
  unfold getTokenFromRequest
  rw [if_pos ⟨by simp [strTruthy,
      jsStartsWith_bearer_ne_empty ("Bearer " ++ t) (jsStartsWith_bearer_append t)],
    jsStartsWith_bearer_append t⟩]
  simp only [Option.getD_some]
  rw [jsSubstringFrom_bearer_append]

/-! ## Claims -/

/-- Claim C2 (code_bug): of the four spec test vectors for the tenant
resolver, the code satisfies only three.  `getSubdomain "acme.localhost:3000"`
is `none`, not `some "acme"`: the host matches none of the development-branch
conditions (it is not `localhost` and starts with neither `127.0.0.1` nor
`localhost:`), so it falls into the production branch, where its two
dot-separated labels are fewer than the three required — contradicting the
spec vector and the source's own comment citing `acme.localhost:3000`. -/
theorem getSubdomain_on_spec_vectors :
    getSubdomain "acme.localhost:3000" = none ∧
    getSubdomain "localhost:3000" = none ∧
    getSubdomain "www.example.com" = none ∧
    getSubdomain "acme.example.com" = some "acme" := by
  refine ⟨by decide, by decide, by decide, by decide⟩

/-- Claim C10 (confirmed): `verifyToken` is total — for every token string,
either the underlying `jwt.verify` succeeds and `verifyToken` returns the
decoded payload, or `jwt.verify` raises some error and `verifyToken` returns
`null`; no exception escapes the `try/catch`. -/
theorem verifyToken_total (now : Nat) (secret token : String) :
    (∃ p, jwtVerify now secret token = .ok p ∧ verifyToken now secret token = some p) ∨
    (∃ e, jwtVerify now secret token = .error e ∧ verifyToken now secret token = none) := by
  cases h : jwtVerify now secret token with
  | ok p => exact .inl ⟨p, rfl, by unfold verifyToken; rw [h]⟩
  | error e => exact .inr ⟨e, rfl, by unfold verifyToken; rw [h]⟩

/-- Claim C7 (confirmed): `hasMinimumRole` realizes AGENT < ADMIN < OWNER as
a total function: OWNER is at least every recognized role, AGENT is not at
least ADMIN, and every unrecognized role value (one with no rank in
`roleHierarchy`) always fails `hasMinimumRole` and never matches `hasRole`
against a list of recognized roles — with no crash, since the JS `>=`
comparison against `undefined` is simply false. -/
theorem role_hierarchy_total_and_unrecognized_fails :
    (∀ r, r ∈ ["AGENT", "ADMIN", "OWNER"] → hasMinimumRole "OWNER" r = true) ∧
    hasMinimumRole "AGENT" "ADMIN" = false ∧
    (∀ r, roleHierarchy r = none →
      (∀ m, hasMinimumRole r m = false) ∧
      (∀ rs, (∀ x ∈ rs, roleHierarchy x ≠ none) → hasRole r rs = false)) := by
  refine ⟨?_, by decide, ?_⟩
  · intro r hr
    fin_cases hr <;> decide
  · intro r hr
    refine ⟨?_, ?_⟩
    · intro m
      unfold hasMinimumRole
      rw [hr]
    · intro rs hrs
      have hmem : r ∉ rs := fun hm => hrs r hm hr
      unfold hasRole
      simpa using hmem

/-- Witness for C7 at a concrete unrecognized role value. -/
theorem role_hierarchy_unrecognized_witness :
    hasMinimumRole "SUPERADMIN" "AGENT" = false ∧
    hasRole "SUPERADMIN" ["OWNER", "ADMIN", "AGENT"] = false :=
  ⟨(role_hierarchy_total_and_unrecognized_fails.2.2 "SUPERADMIN" rfl).1 "AGENT",
   (role_hierarchy_total_and_unrecognized_fails.2.2 "SUPERADMIN" rfl).2
     ["OWNER", "ADMIN", "AGENT"] (by decide)⟩

/-- Claim C9 (confirmed): `getTokenFromRequest` gives a well-formed
`Authorization: Bearer ...` header strict precedence over the `auth-token`
cookie (the header's suffix after `Bearer ` is returned even when the cookie
is set); the cookie value is returned only when no such header exists and
the cookie carries a (nonempty) value; and the result is `null` exactly when
neither is present — a cookie with empty value carries no token and counts
as absent, as does an empty `Authorization` value. -/
theorem getTokenFromRequest_header_precedence (authorization cookieToken : Option String) :
    (∀ a, authorization = some a → jsStartsWith a "Bearer " = true →
      getTokenFromRequest authorization cookieToken = some (jsSubstringFrom a 7)) ∧
    ((∀ a, authorization = some a → jsStartsWith a "Bearer " = false) →
      strTruthy cookieToken = true →
      getTokenFromRequest authorization cookieToken = cookieToken) ∧
    (getTokenFromRequest authorization cookieToken = none ↔
      ((∀ a, authorization = some a → jsStartsWith a "Bearer " = false) ∧
        strTruthy cookieToken = false)) := by
  cases authorization with
  | none =>
    unfold getTokenFromRequest
    rw [if_neg (by rintro ⟨h1, _⟩; simp [strTruthy] at h1)]
    refine ⟨fun a ha _ => Option.noConfusion ha, ?_, ?_⟩
    · intro _ htr
      rw [if_pos htr]
    · by_cases hB : strTruthy cookieToken = true
      · rw [if_pos hB]
        constructor
        · intro h
          rw [h] at hB
          simp [strTruthy] at hB
        · rintro ⟨_, h2⟩
          rw [h2] at hB
          exact absurd hB (by simp)
      · rw [if_neg hB, Bool.not_eq_true] at *
        exact ⟨fun _ => ⟨fun a ha => Option.noConfusion ha, hB⟩, fun _ => rfl⟩
  | some a =>
    unfold getTokenFromRequest
    simp only [Option.getD_some]
    by_cases hpre : jsStartsWith a "Bearer " = true
    · have htr : strTruthy (some a) = true := by
        simp [strTruthy, jsStartsWith_bearer_ne_empty a hpre]
      rw [if_pos ⟨htr, hpre⟩]
      refine ⟨fun b hb _ => by cases hb; rfl, ?_, ?_⟩
      · intro hno _
        exact absurd (hno a rfl) (by simp [hpre])
      · constructor
        · intro h
          exact Option.noConfusion h
        · rintro ⟨h1, _⟩
          exact absurd (h1 a rfl) (by simp [hpre])
    · have hpre' : jsStartsWith a "Bearer " = false := by
        rwa [Bool.not_eq_true] at hpre
      rw [if_neg (by rintro ⟨_, hb⟩; exact hpre hb)]
      refine ⟨fun b hb hpb => by cases hb; exact absurd hpb hpre, ?_, ?_⟩
      · intro _ htr
        rw [if_pos htr]
      · by_cases hB : strTruthy cookieToken = true
        · rw [if_pos hB]
          constructor
          · intro h
            rw [h] at hB
            simp [strTruthy] at hB
          · rintro ⟨_, h2⟩
            rw [h2] at hB
            exact absurd hB (by simp)
        · rw [if_neg hB, Bool.not_eq_true] at *
          exact ⟨fun _ => ⟨fun b hb => by cases hb; exact hpre', hB⟩, fun _ => rfl⟩

/-- Witness for C9: a Bearer header wins over a simultaneously set cookie. -/
theorem getTokenFromRequest_header_precedence_witness :
    getTokenFromRequest (some "Bearer abc") (some "cookieval")
      = some (jsSubstringFrom "Bearer abc" 7) :=
  (getTokenFromRequest_header_precedence (some "Bearer abc") (some "cookieval")).1
    "Bearer abc" rfl (by decide)

/-- Claim C4, counterexample: a well-signed token whose expiry has passed
and a badly-signed token make `jwt.verify` raise the distinct errors
`expired` and `badSignature`, yet `verifyToken` — the repository's
credential verification — returns the very same value (`null`) for both, so
its outcome is not a machine-distinguishable `Expired`; the composed route
behavior is likewise the single 401 invalid-token branch for the expired
credential on either transport. -/
theorem verifyToken_collapses_expired_and_bad_signature :
    jwtVerify 200 testSecret expiredToken = .error .expired ∧
    jwtVerify 200 testSecret badSigToken = .error .badSignature ∧
    verifyToken 200 testSecret expiredToken = none ∧
    verifyToken 200 testSecret badSigToken = none ∧
    verifyToken 200 testSecret expiredToken = verifyToken 200 testSecret badSigToken ∧
    routeAuth 200 testSecret (some ("Bearer " ++ expiredToken)) none = .invalidToken ∧
    routeAuth 200 testSecret none (some expiredToken) = .invalidToken :=
  ⟨rfl, rfl, rfl, rfl, rfl, rfl, rfl⟩

/-- Claim C4 as amended: every failing credential — malformed, badly signed,
or expired alike — yields the single undifferentiated `null` from
`verifyToken` (no distinct `Expired` kind), and the route outcome is the one
invalid-token branch, identical whether the credential arrives via the
`Authorization: Bearer` header or the `auth-token` cookie; only credential
absence is a separately distinguished branch. -/
theorem verifyToken_failure_uniform_and_transport_identical
    (now : Nat) (secret t : String) (e : JwtError)
    (ht : t ≠ "") (hv : jwtVerify now secret t = .error e) :
    verifyToken now secret t = none ∧
    routeAuth now secret (some ("Bearer " ++ t)) none = .invalidToken ∧
    routeAuth now secret none (some t) = .invalidToken := by
  have hvt : verifyToken now secret t = none := by
    unfold verifyToken
    rw [hv]
  refine ⟨hvt, ?_, ?_⟩
  · have htok : getTokenFromRequest (some ("Bearer " ++ t)) none = some t :=
      getTokenFromRequest_bearer t
    unfold routeAuth
    rw [htok]
    show (match verifyToken now secret t with
      | none => AuthOutcome.invalidToken
      | some p => AuthOutcome.ok p) = AuthOutcome.invalidToken
    rw [hvt]
  · have htok : getTokenFromRequest none (some t) = some t := by
      unfold getTokenFromRequest
      rw [if_neg (by rintro ⟨h1, _⟩; simp [strTruthy] at h1),
        if_pos (by simp [strTruthy, ht])]
    unfold routeAuth
    rw [htok]
    show (match verifyToken now secret t with
      | none => AuthOutcome.invalidToken
      | some p => AuthOutcome.ok p) = AuthOutcome.invalidToken
    rw [hvt]

/-- Witness for the amended C4, at the concrete badly-signed token. -/
theorem verifyToken_failure_uniform_witness :
    verifyToken 200 testSecret badSigToken = none ∧
    routeAuth 200 testSecret (some ("Bearer " ++ badSigToken)) none = .invalidToken ∧
    routeAuth 200 testSecret none (some badSigToken) = .invalidToken :=
  verifyToken_failure_uniform_and_transport_identical 200 testSecret badSigToken
    .badSignature (by decide) rfl

/-- Claim C1 (code_bug): the middleware does NOT strip or overwrite
client-supplied values under the trusted header names.  At the concrete
forged request — whose client sent `x-org-subdomain: victim-org`,
`x-user-orgid: forged-id`, `x-user-role: OWNER` alongside a valid cookie
token bound to org `org1` with role AGENT — the handler-stage readers
`getOrgFromRequest` / `getUserFromRequest` observe exactly the
client-supplied values, while the middleware-derived trusted values
(`acme-corp`, `org1`, `AGENT`) land only in the outgoing response's headers,
which no handler reads. -/
theorem middleware_forwards_client_context_headers :
    (middleware 100 testSecret "production" "/api/users" (some validToken) forgedReq).forwarded
      = forgedReq ∧
    getOrgFromRequest
      (middleware 100 testSecret "production" "/api/users" (some validToken) forgedReq).forwarded
      = some "victim-org" ∧
    getUserFromRequest
      (middleware 100 testSecret "production" "/api/users" (some validToken) forgedReq).forwarded
      = (some "forged-id", some "OWNER") ∧
    (middleware 100 testSecret "production" "/api/users" (some validToken) forgedReq).action
      = .nextWith [("x-org-subdomain", "acme-corp"), ("x-user-orgid", "org1"),
          ("x-user-role", "AGENT")] := by
  refine ⟨by decide, by decide, by decide, by decide⟩

/-- Claim C3 (confirmed): for distinct tenants T1 and T2 (distinct,
nonempty ids) and any role and environment, when the principal's tenant id
is T1's and the resolved slug maps through the directory to T2, the Gate
returns the 403 cross-tenant denial — never an Allowed outcome. -/
theorem gate_cross_tenant_never_allowed (orgs : List Org) (nodeEnv : String)
    (T1 T2 : Org) (s : String) (userRole : Option String) (minimumRole : String)
    (hs : s ≠ "") (h1 : T1._id ≠ "") (hlookup : findBySlug orgs s = some T2)
    (hdistinct : T1._id ≠ T2._id) :
    (gate orgs nodeEnv (some s) (some T1._id) userRole minimumRole).fst
      = .denied .crossTenantAccess 403
          "Access denied: You do not belong to this organization" := by
  have hst : strTruthy (some s) = true := by simp [strTruthy, hs]
  have hctx : validateOrgContext orgs nodeEnv (some s) (some T1._id)
      = (.err .crossTenantAccess 403
          "Access denied: You do not belong to this organization",
         [.connect, .orgFindOne s]) := by
    unfold validateOrgContext validateOrgSubdomain
    rw [if_neg (by rintro ⟨hc, _⟩; rw [hst] at hc; exact Bool.noConfusion hc),
      if_neg (by intro hc; rw [hst] at hc; exact Bool.noConfusion hc)]
    simp only [Option.getD_some]
    rw [hlookup]
    dsimp only
    rw [if_pos ⟨by simp [strTruthy, h1], by simp [hdistinct]⟩]
  unfold gate
  rw [hctx]

/-- Witness for C3: acme's principal against techcorp's subdomain. -/
theorem gate_cross_tenant_never_allowed_witness :
    (gate [acmeOrg, techOrg] "production" (some "techcorp") (some acmeOrg._id)
        (some "OWNER") "AGENT").fst
      = .denied .crossTenantAccess 403
          "Access denied: You do not belong to this organization" :=
  gate_cross_tenant_never_allowed [acmeOrg, techOrg] "production" acmeOrg techOrg
    "techcorp" (some "OWNER") "AGENT" (by decide) (by decide) (by decide) (by decide)

/-- Claim C6 (confirmed): in production mode, whenever the host yields no
slug, the Gate denies with the 400 missing-tenant response and issues zero
database effects — no `connectToDB` call and no Org query at all. -/
theorem gate_production_no_slug_zero_lookups (orgs : List Org) (host : String)
    (userOrgId userRole : Option String) (minimumRole : String)
    (hhost : getSubdomain host = none) :
    gate orgs "production" (getSubdomain host) userOrgId userRole minimumRole
      = (.denied .missingTenant 400 "Organization subdomain required", []) := by
  rw [hhost]
  unfold gate validateOrgContext
  rw [if_neg (by rintro ⟨_, hc, _⟩; exact absurd hc (by decide)),
    if_pos (show strTruthy none = false from rfl)]

/-- Witness for C6 at the concrete host `localhost`. -/
theorem gate_production_no_slug_witness :
    gate [acmeOrg] "production" (getSubdomain "localhost") none none "ADMIN"
      = (.denied .missingTenant 400 "Organization subdomain required", []) :=
  gate_production_no_slug_zero_lookups [acmeOrg] "localhost" none none "ADMIN" (by decide)

/-- Claim C5 (confirmed): the Gate decision equals, on every input, the
spec's five-step procedure in its stated order — missing-slug handling with
the development fallback, then directory lookup, then membership, then
role, then allow.  In the development fallback the source skips the
explicit membership step; this is equivalent because `findById` can only
return the principal's own organization. -/
theorem gate_matches_spec_order (orgs : List Org) (nodeEnv : String)
    (subdomain userOrgId userRole : Option String) (minimumRole : String) :
    (gate orgs nodeEnv subdomain userOrgId userRole minimumRole).fst
      = gateSpec orgs nodeEnv subdomain userOrgId userRole minimumRole := by
  unfold gate gateSpec validateOrgContext validateOrgSubdomain gateSpecTail validateMinimumRole
  by_cases h1 : strTruthy subdomain = false
  · by_cases h2 : nodeEnv = "development" ∧ strTruthy userOrgId = true
    · rw [if_pos ⟨h1, h2.1, h2.2⟩, if_pos h1, if_pos h2]
      obtain ⟨u, hu⟩ : ∃ u, userOrgId = some u := by
        cases userOrgId with
        | none => exact absurd h2.2 (by simp [strTruthy])
        | some u => exact ⟨u, rfl⟩
      subst hu
      simp only [Option.getD_some]
      cases hf : findById orgs u with
      | none => rfl
      | some org =>
        have horg : org._id = u := findById_id orgs u org hf
        dsimp only
        rw [if_neg (show ¬(strTruthy (some u) = true ∧ some u ≠ some org._id) from
          by rintro ⟨_, hne⟩; exact hne (by rw [horg]))]
        split_ifs <;> rfl
    · rw [if_neg (by rintro ⟨_, hb, hc⟩; exact h2 ⟨hb, hc⟩), if_pos h1, if_pos h1,
        if_neg h2]
  · rw [if_neg (fun hc => h1 hc.1), if_neg h1, if_neg h1]
    cases hs : findBySlug orgs (subdomain.getD "") with
    | none => rfl
    | some org =>
      dsimp only
      split_ifs <;> rfl

/-! ## Status-consistency helpers for the decision-to-status mapping -/

/-- A decision is status-consistent when any denial carries the spec's
status for its kind. -/
def statusConsistent : Decision → Prop
  | .denied k s _ => s = specStatusOf k
  | .allowed _ => True

/-- Status consistency for `validateOrgContext` results. -/
def ctxStatusConsistent : CtxResult → Prop
  | .err k s _ => s = specStatusOf k
  | .ok _ => True

/-- Status consistency for role-validation results. -/
def roleStatusConsistent : RoleResult → Prop
  | .err k s _ => s = specStatusOf k
  | .authorized => True

/-- Status consistency for middleware actions. -/
def mwStatusConsistent : MwAction → Prop
  | .jsonError k s _ => s = specStatusOf k
  | _ => True

/-- Every error branch of `validateOrgContext` carries the spec's status. -/
theorem validateOrgContext_status (orgs : List Org) (nodeEnv : String)
    (subdomain userOrgId : Option String) :
    ctxStatusConsistent (validateOrgContext orgs nodeEnv subdomain userOrgId).fst := by
  unfold validateOrgContext validateOrgSubdomain
  by_cases h1 : strTruthy subdomain = false ∧ nodeEnv = "development" ∧
      strTruthy userOrgId = true
  · rw [if_pos h1]
    cases hf : findById orgs (userOrgId.getD "") with
    | none => exact rfl
    | some org => exact trivial
  · rw [if_neg h1]
    by_cases h2 : strTruthy subdomain = false
    · rw [if_pos h2]; exact rfl
    · rw [if_neg h2]
      cases hs : findBySlug orgs (subdomain.getD "") with
      | none => exact rfl
      | some org =>
        dsimp only
        split_ifs <;> first | exact rfl | exact trivial

/-- Every error branch of `validateMinimumRole` carries the spec's status. -/
theorem validateMinimumRole_status (userRole : Option String) (minimumRole : String) :
    roleStatusConsistent (validateMinimumRole userRole minimumRole) := by
  unfold validateMinimumRole
  split_ifs <;> first | exact rfl | exact trivial

/-- Every denial of the Gate carries the spec's status. -/
theorem gate_status (orgs : List Org) (nodeEnv : String)
    (subdomain userOrgId userRole : Option String) (minimumRole : String) :
    statusConsistent (gate orgs nodeEnv subdomain userOrgId userRole minimumRole).fst := by
  have hctx := validateOrgContext_status orgs nodeEnv subdomain userOrgId
  unfold gate
  cases h : validateOrgContext orgs nodeEnv subdomain userOrgId with
  | mk cr evs =>
    rw [h] at hctx
    cases cr with
    | err k s m => exact hctx
    | ok org =>
      have hrole := validateMinimumRole_status userRole minimumRole
      cases hr : validateMinimumRole userRole minimumRole with
      | err k s m => rw [hr] at hrole; exact hrole
      | authorized => exact trivial

/-- Every denial of the users-route GET handler carries the spec's status. -/
theorem routeGET_status (dbUp : Bool) (orgs : List Org) (nodeEnv : String)
    (now : Nat) (secret : String)
    (authorization cookieToken subdomain userOrgId userRole : Option String)
    (minimumRole : String) :
    statusConsistent (routeGET dbUp orgs nodeEnv now secret authorization
      cookieToken subdomain userOrgId userRole minimumRole) := by
  unfold routeGET
  by_cases hdb : dbUp = false
  · rw [if_pos hdb]; exact rfl
  · rw [if_neg hdb]
    cases ht : getTokenFromRequest authorization cookieToken with
    | none => exact rfl
    | some t =>
      dsimp only
      cases hv : verifyToken now secret t with
      | none => exact rfl
      | some p => exact gate_status orgs nodeEnv subdomain userOrgId userRole minimumRole

/-- Every JSON error the middleware returns carries the spec's status. -/
theorem middleware_status (now : Nat) (secret nodeEnv pathname : String)
    (cookieToken : Option String) (req : ReqHeaders) :
    mwStatusConsistent (middleware now secret nodeEnv pathname cookieToken req).action := by
  unfold middleware
  dsimp only
  split_ifs <;> first | exact rfl | exact trivial

/-- Claim C8 (confirmed): every denial produced by the route pipeline or by
the middleware maps to exactly the spec's HTTP status for its kind:
MissingCredential and InvalidCredential to 401, CrossTenantAccess and
InsufficientRole to 403, TenantNotFound to 404, MissingTenant to 400,
InternalFailure to 500. -/
theorem deny_status_mapping :
    (∀ dbUp orgs nodeEnv now secret authorization cookieToken subdomain userOrgId
        userRole minimumRole k s m,
      routeGET dbUp orgs nodeEnv now secret authorization cookieToken subdomain
          userOrgId userRole minimumRole = .denied k s m →
        s = specStatusOf k) ∧
    (∀ now secret nodeEnv pathname cookieToken req k s m,
      (middleware now secret nodeEnv pathname cookieToken req).action
          = .jsonError k s m →
        s = specStatusOf k) := by
  constructor
  · intro dbUp orgs nodeEnv now secret authorization cookieToken subdomain
      userOrgId userRole minimumRole k s m h
    have H := routeGET_status dbUp orgs nodeEnv now secret authorization
      cookieToken subdomain userOrgId userRole minimumRole
    rw [h] at H
    exact H
  · intro now secret nodeEnv pathname cookieToken req k s m h
    have H := middleware_status now secret nodeEnv pathname cookieToken req
    rw [h] at H
    exact H

/-- Witness for C8: a denied route decision and a middleware JSON error,
each checked against the spec mapping. -/
theorem deny_status_mapping_witness :
    (500 : Nat) = specStatusOf .internalFailure ∧
    (400 : Nat) = specStatusOf .missingTenant :=
  ⟨deny_status_mapping.1 false [] "production" 0 "k" none none none none none
      "AGENT" .internalFailure 500 "Internal server error" rfl,
   deny_status_mapping.2 0 "k" "production" "/dashboard-page" (some "sometoken")
      ⟨none, none, none, none⟩ .missingTenant 400 "Organization subdomain required"
      (by decide)⟩

end AiDesk
